import Mathlib

/-!
Shallow embedding of the analysis scripts of medifinance-pro-v2
(src/analyze_excel.py, src/analyze_formulas.py, src/analyze_sheets.py).

Cell values are modelled by `CellValue` (empty cell = `CellValue.none`,
otherwise a string, an integer or a boolean), with Python truthiness
(`CellValue.truthy`) and Python `str(...)` (`CellValue.toStr`).
Substring search (Python `in`) is `strContains`, built on character lists.
-/

/-- A spreadsheet cell's stored value: empty, a string, a number or a
boolean.  `CellValue.none` is openpyxl's `None` for an empty cell. -/
inductive CellValue where
  | none
  | str (s : String)
  | int (n : Int)
  | bool (b : Bool)
deriving DecidableEq, Repr

/-- Python truthiness of a cell value: `None`, `0`, `""` and `False` are
falsy, everything else truthy.  This is the `if account:` / `if cell.value`
test of the scripts. -/
def CellValue.truthy : CellValue → Bool
  | .none => false
  | .str s => !(s == "")
  | .int n => !(n == 0)
  | .bool b => b

/-- Python `str(...)` of a cell value. -/
def CellValue.toStr : CellValue → String
  | .none => "None"
  | .str s => s
  | .int n => toString n
  | .bool b => if b then "True" else "False"

/-- `startsWithList n l` is true when the character list `l` starts with
`n` (Python `l.startswith(n)` at list level). -/
def startsWithList : List Char → List Char → Bool
  | [], _ => true
  | _ :: _, [] => false
  | a :: as, b :: bs => a == b && startsWithList as bs

/-- `containsList n l` is true when `n` occurs as a contiguous run inside
`l` (list-level substring occurrence). -/
def containsList (needle : List Char) : List Char → Bool
  | [] => startsWithList needle []
  | c :: cs => startsWithList needle (c :: cs) || containsList needle cs

/-- Python's substring test `needle in hay` on strings. -/
def strContains (hay needle : String) : Bool :=
  containsList needle.toList hay.toList

/-- Python `len(s)` (number of characters). -/
def strLen (s : String) : Nat := s.toList.length

/-- Python slice `s[:n]` (first `n` characters). -/
def strTake (s : String) (n : Nat) : String := (s.toList.take n).asString

/-- The formula test of the scripts:
`cell.value and isinstance(cell.value, str) and cell.value.startswith('=')`.
Returns the formula text when the cell holds one. -/
def formulaText : CellValue → Option String
  | .str s =>
      if CellValue.truthy (.str s) && startsWithList ['='] s.toList then some s
      else none
  | _ => none

/-- A cell is a formula cell iff its stored value is a string whose first
character is `=`. -/
def isFormulaCell : CellValue → Bool
  | .str s => startsWithList ['='] s.toList
  | _ => false

/-- The seven formula categories of `analyze_formulas_detailed`. -/
inductive FormulaType where
  | SUMIFS | VLOOKUP | IF | SUM | SUBTOTAL | ARITHMETIC | OTHER
deriving DecidableEq, Repr

/-- The classification chain of `analyze_formulas_detailed`
(src/analyze_formulas.py lines 24-38), in source order with first match
winning. -/
def classify_formula (formula : String) : FormulaType :=
  if strContains formula "SUMIFS" then .SUMIFS
  else if strContains formula "VLOOKUP" then .VLOOKUP
  else if strContains formula "IF(" then .IF
  else if strContains formula "SUM(" then .SUM
  else if strContains formula "SUBTOTAL" then .SUBTOTAL
  else if strContains formula "+" || strContains formula "-"
       || strContains formula "*" || strContains formula "/" then .ARITHMETIC
  else .OTHER

/-- The recorded formula text:
`formula[:100] + ('...' if len(formula) > 100 else '')`. -/
def truncate_formula (f : String) : String :=
  strTake f 100 ++ (if 100 < strLen f then "..." else "")

/-- A cell as seen by `ws.iter_rows()`: a coordinate label and a value. -/
structure FCell where
  coordinate : String
  value : CellValue
deriving DecidableEq, Repr

/-- A sheet for the formula scans: the rows yielded by `ws.iter_rows()`. -/
abbrev Sheet := List (List FCell)

/-- One entry of the `formulas` list built by `analyze_formulas_detailed`:
`{'cell': cell.coordinate, 'formula': formula[:100] + ...}`. -/
structure FormulaRecord where
  cell : String
  formula : String
deriving DecidableEq, Repr

/-- One `counter[k] += 1` step on a `collections.Counter`, modelled as an
insertion-ordered association list: a key gains an entry on its first
increment and never before. -/
def incr (k : FormulaType) : List (FormulaType × Nat) → List (FormulaType × Nat)
  | [] => [(k, 1)]
  | (k', n) :: rest => if k' == k then (k', n + 1) :: rest else (k', n) :: incr k rest

/-- The qualifying (coordinate, formula text) pairs of a sheet in row-major
scan order. -/
def sheetFormulas (ws : Sheet) : List (String × String) :=
  ws.flatten.filterMap (fun c => (formulaText c.value).map (fun f => (c.coordinate, f)))

/-- `analyze_formulas_detailed` (src/analyze_formulas.py lines 11-40): one
row-major scan appending a `FormulaRecord` per formula cell and bumping the
`Counter` with that formula's category. -/
def analyze_formulas_detailed (ws : Sheet) :
    List FormulaRecord × List (FormulaType × Nat) :=
  ((sheetFormulas ws).map (fun p => FormulaRecord.mk p.1 (truncate_formula p.2)),
   ((sheetFormulas ws).map (fun p => classify_formula p.2)).foldl (fun t k => incr k t) [])

/-- Sum of all counts of a tally (`sum(counter.values())`). -/
def tallySum : List (FormulaType × Nat) → Nat
  | [] => 0
  | (_, n) :: t => n + tallySum t

lemma startsWithList_ne_nil {l : List Char} (h : startsWithList ['='] l = true) :
    l ≠ [] := by
  intro he
  subst he
  simp [startsWithList] at h

lemma formulaText_isSome (v : CellValue) :
    (formulaText v).isSome = isFormulaCell v := by
  cases v with
  | str s =>
      by_cases hs : startsWithList ['='] s.data = true
      · have hne : s ≠ "" := by
          intro he
          subst he
          exact startsWithList_ne_nil hs rfl
        simp [formulaText, isFormulaCell, CellValue.truthy, String.toList, hs, hne]
      · simp [formulaText, isFormulaCell, CellValue.truthy, String.toList, hs]
  | none => rfl
  | int n => rfl
  | bool b => rfl

lemma tallySum_incr (k : FormulaType) (t : List (FormulaType × Nat)) :
    tallySum (incr k t) = tallySum t + 1 := by
  induction t with
  | nil => rfl
  | cons p rest ih =>
      obtain ⟨k', n⟩ := p
      by_cases h : (k' == k) = true
      · simp [incr, h, tallySum]
        omega
      · simp [incr, h, tallySum, ih]
        omega

lemma tallySum_foldl (l : List FormulaType) :
    ∀ t : List (FormulaType × Nat),
      tallySum (l.foldl (fun t k => incr k t) t) = tallySum t + l.length := by
  induction l with
  | nil => intro t; simp
  | cons k rest ih =>
      intro t
      simp only [List.foldl_cons, ih, tallySum_incr, List.length_cons]
      omega

lemma length_sheetFormulas (l : List FCell) :
    (l.filterMap (fun c => (formulaText c.value).map (fun f => (c.coordinate, f)))).length
      = (l.filter (fun c => isFormulaCell c.value)).length := by
  induction l with
  | nil => rfl
  | cons c t ih =>
      have h := formulaText_isSome c.value
      cases hf : formulaText c.value with
      | none =>
          rw [hf] at h
          simp only [List.filterMap_cons, List.filter_cons, hf, Option.map_none']
          rw [← h]
          simpa using ih
      | some f =>
          rw [hf] at h
          simp only [List.filterMap_cons, List.filter_cons, hf, Option.map_some']
          rw [← h]
          simpa using ih

lemma startsWithList_append {a b l : List Char}
    (h : startsWithList (a ++ b) l = true) : startsWithList a l = true := by
  induction a generalizing l with
  | nil => rfl
  | cons x xs ih =>
      cases l with
      | nil => simp [startsWithList] at h
      | cons y ys =>
          simp only [List.cons_append, startsWithList, Bool.and_eq_true] at h ⊢
          exact ⟨h.1, ih h.2⟩

lemma containsList_append {n m hay : List Char}
    (h : containsList (n ++ m) hay = true) : containsList n hay = true := by
  induction hay with
  | nil =>
      cases n with
      | nil => rfl
      | cons x xs => simp [containsList, startsWithList] at h
  | cons c cs ih =>
      simp only [containsList, Bool.or_eq_true] at h ⊢
      cases h with
      | inl h1 => exact Or.inl (startsWithList_append h1)
      | inr h2 => exact Or.inr (ih h2)

/-- The sheet of the C1 counterexample: two cells, neither a formula. -/
def c1Sheet : Sheet := [[⟨"A1", .str "hello"⟩, ⟨"B1", .int 7⟩]]

/-- Claim C1 (corrected part): on a sheet with zero formula cells,
`analyze_formulas_detailed` returns an empty record sequence and an empty
tally — the `Counter` gains a key only on the first increment of that
category, so no category key is present at all. -/
theorem c1_zero_formulas_empty_tally (ws : Sheet)
    (h : ∀ c ∈ ws.flatten, isFormulaCell c.value = false) :
    analyze_formulas_detailed ws = ([], []) := by
  have hsf : sheetFormulas ws = [] := by
    apply List.filterMap_eq_nil_iff.mpr
    intro c hc
    have h2 : formulaText c.value = none := by
      apply Option.not_isSome_iff_eq_none.mp
      rw [formulaText_isSome, h c hc]
      simp
    simp [h2]
  simp [analyze_formulas_detailed, hsf]

/-- Claim C1, as stated, is false: `c1Sheet` has zero formula cells, the
record sequence is empty, yet the tally does not contain the key SUMIFS
with value zero (the tally is the empty mapping). -/
theorem c1_counterexample :
    (c1Sheet.flatten.filter (fun c => isFormulaCell c.value)).length = 0
    ∧ (analyze_formulas_detailed c1Sheet).1 = []
    ∧ ¬ ((FormulaType.SUMIFS, 0) ∈ (analyze_formulas_detailed c1Sheet).2) := by
  decide

/-- Witness for the amended C1 at the concrete zero-formula sheet. -/
theorem c1_witness :
    (∀ c ∈ c1Sheet.flatten, isFormulaCell c.value = false)
    ∧ analyze_formulas_detailed c1Sheet = ([], []) :=
  ⟨by decide, c1_zero_formulas_empty_tally c1Sheet (by decide)⟩

/-- Claim C2: the classification chain gives SUMIFS priority, so a formula
containing both `SUMIFS(` and `SUM(` classifies as SUMIFS (never SUM); and
a formula containing none of the five recognized function substrings but at
least one of `+ - * /` classifies as ARITHMETIC. -/
theorem c2_priority_precedence (f : String) :
    (strContains f "SUMIFS(" = true → strContains f "SUM(" = true →
        classify_formula f = FormulaType.SUMIFS)
    ∧ (strContains f "SUMIFS" = false → strContains f "VLOOKUP" = false →
        strContains f "IF(" = false → strContains f "SUM(" = false →
        strContains f "SUBTOTAL" = false →
        (strContains f "+" || strContains f "-" || strContains f "*"
          || strContains f "/") = true →
        classify_formula f = FormulaType.ARITHMETIC) := by
  constructor
  · intro h1 _
    have hsplit : ("SUMIFS(").toList = ("SUMIFS").toList ++ ['('] := by decide
    have hs : strContains f "SUMIFS" = true := by
      unfold strContains at h1 ⊢
      rw [hsplit] at h1
      exact containsList_append h1
    simp [classify_formula, hs]
  · intro h1 h2 h3 h4 h5 h6
    simp [classify_formula, h1, h2, h3, h4, h5, h6]

/-- Witness for C2 at two concrete formulas. -/
theorem c2_witness :
    classify_formula "=SUMIFS(A1:A9,B1:B9,1)+SUM(C1:C9)" = FormulaType.SUMIFS
    ∧ classify_formula "=A1+B1" = FormulaType.ARITHMETIC :=
  ⟨(c2_priority_precedence "=SUMIFS(A1:A9,B1:B9,1)+SUM(C1:C9)").1 (by decide) (by decide),
   (c2_priority_precedence "=A1+B1").2 (by decide) (by decide) (by decide)
     (by decide) (by decide) (by decide)⟩

/-- Claim C3: every formula cell is assigned exactly one category, so the
sum of all tally entries equals the number of formula-valued cells of the
sheet, which also equals the length of the record sequence. -/
theorem c3_total_classification (ws : Sheet) :
    tallySum (analyze_formulas_detailed ws).2
        = (ws.flatten.filter (fun c => isFormulaCell c.value)).length
    ∧ (analyze_formulas_detailed ws).1.length
        = (ws.flatten.filter (fun c => isFormulaCell c.value)).length := by
  have hlen : (sheetFormulas ws).length
      = (ws.flatten.filter (fun c => isFormulaCell c.value)).length :=
    length_sheetFormulas ws.flatten
  constructor
  · simp [analyze_formulas_detailed, tallySum_foldl, tallySum, hlen]
  · simp [analyze_formulas_detailed, hlen]

/-- Claim C4: the recorded formula text is unmodified when its length is at
most 100 characters, and is exactly the first 100 characters followed by
the marker `...` when longer. -/
theorem c4_truncation (f : String) :
    (strLen f ≤ 100 → truncate_formula f = f)
    ∧ (100 < strLen f → truncate_formula f = strTake f 100 ++ "...") := by
  constructor
  · intro h
    have hnot : ¬ 100 < strLen f := by omega
    have h' : f.toList.length ≤ 100 := h
    unfold truncate_formula strTake
    rw [if_neg hnot, List.take_of_length_le h', String.asString_toList,
      String.append_empty]
  · intro h
    unfold truncate_formula
    rw [if_pos h]

/-- A length-80 formula text. -/
def s80 : String := String.mk (List.replicate 80 'b')

/-- A length-150 formula text. -/
def s150 : String := String.mk (List.replicate 150 'a')

set_option maxRecDepth 40000 in
/-- Witness for C4 at a length-80 and a length-150 concrete string. -/
theorem c4_witness :
    (strLen s80 ≤ 100 ∧ truncate_formula s80 = s80)
    ∧ (100 < strLen s150 ∧ truncate_formula s150 = strTake s150 100 ++ "...") :=
  ⟨⟨by decide, (c4_truncation s80).1 (by decide)⟩,
   ⟨by decide, (c4_truncation s150).2 (by decide)⟩⟩

/-- A sheet for the column scans of src/analyze_excel.py: cell access by
(row, column), 1-indexed, with a known `max_row` bound. -/
structure GridSheet where
  maxRow : Nat
  cell : Nat → Nat → CellValue

/-- The values read by `for row_idx in range(start, ws.max_row + 1):
ws.cell(row=row_idx, column=col).value`. -/
def column_values (s : GridSheet) (col startRow : Nat) : List CellValue :=
  (List.range' startRow (s.maxRow + 1 - startRow)).map (fun r => s.cell r col)

/-- The `account_subjects_out` / `account_subjects_bun` loop
(src/analyze_excel.py lines 12-25): keep `str(account)` for every cell with
`account and str(account) != sentinel`. -/
def account_subjects (s : GridSheet) (col startRow : Nat) (sentinel : String) :
    List String :=
  (column_values s col startRow).filterMap (fun v =>
    if v.truthy && !(v.toStr == sentinel) then some v.toStr else none)

/-- The `large_categories` / `small_categories` loop
(src/analyze_excel.py lines 44-48): keep `str(category)` for every truthy
cell, no sentinel test. -/
def large_categories (s : GridSheet) (col startRow : Nat) : List String :=
  (column_values s col startRow).filterMap (fun v =>
    if v.truthy then some v.toStr else none)

/-- `Counter(l)` looked at as its key list: the distinct strings of `l`. -/
def counter_keys (l : List String) : List String := l.dedup

/-- `sum(Counter(l).values())`: the total of all counts. -/
def counter_total (l : List String) : Nat :=
  (l.dedup.map (fun k => l.count k)).sum

/-- Stated from the claim's words for comparison with the code: the number
of non-empty (not `None`), non-sentinel cells of the scanned column. -/
def spec_nonempty_nonsentinel_count (s : GridSheet) (col startRow : Nat)
    (sentinel : String) : Nat :=
  ((column_values s col startRow).filter
    (fun v => !(v == CellValue.none) && !(v.toStr == sentinel))).length

lemma account_subjects_eq_filter (s : GridSheet) (col startRow : Nat)
    (sentinel : String) :
    account_subjects s col startRow sentinel
      = ((column_values s col startRow).filter
          (fun v => v.truthy && !(v.toStr == sentinel))).map CellValue.toStr := by
  unfold account_subjects
  generalize column_values s col startRow = l
  induction l with
  | nil => rfl
  | cons v t ih =>
      cases hv : (v.truthy && !(v.toStr == sentinel)) with
      | true =>
          simp only [List.filterMap_cons, List.filter_cons, hv]
          simp
          simpa using ih
      | false =>
          simp only [List.filterMap_cons, List.filter_cons, hv]
          simp
          simpa using ih

/-- The sentinel of the scripts, the header label. -/
def sentinelLabel : String := "계정과목"

/-- The sheet of the C6 counterexample: one scanned cell, holding the
number 0 — non-empty, not the sentinel, but falsy. -/
def zeroSheet : GridSheet :=
  ⟨4, fun r c => if r == 4 && c == 10 then .int 0 else .none⟩

/-- Claim C6, as stated, is false: on `zeroSheet` the scanned column has
one non-empty, non-sentinel cell (the number 0), but the summarizer counts
nothing, because the code's test is Python truthiness, not non-emptiness. -/
theorem c6_counterexample :
    spec_nonempty_nonsentinel_count zeroSheet 10 4 sentinelLabel = 1
    ∧ (account_subjects zeroSheet 10 4 sentinelLabel).length = 0 := by
  decide

/-- Claim C6 (corrected part): the summarizer excludes sentinel-valued
cells no matter how often they recur and counts the string form of every
other truthy cell: the counter's total equals the number of truthy,
non-sentinel cells of the scanned region, and a string is a counter key iff
it is the string form of such a cell. -/
theorem c6_sentinel_exclusion (s : GridSheet) (col startRow : Nat)
    (sentinel : String) :
    counter_total (account_subjects s col startRow sentinel)
        = ((column_values s col startRow).filter
            (fun v => v.truthy && !(v.toStr == sentinel))).length
    ∧ ∀ k, k ∈ counter_keys (account_subjects s col startRow sentinel)
        ↔ ∃ v ∈ column_values s col startRow,
            v.truthy = true ∧ v.toStr ≠ sentinel ∧ v.toStr = k := by
  constructor
  · rw [counter_total, List.sum_map_count_dedup_eq_length,
      account_subjects_eq_filter, List.length_map]
  · intro k
    rw [counter_keys, List.mem_dedup, account_subjects_eq_filter]
    simp only [List.mem_map, List.mem_filter, Bool.and_eq_true, Bool.not_eq_eq_eq_not,
      Bool.not_true, beq_eq_false_iff_ne, ne_eq]
    constructor
    · rintro ⟨v, ⟨hmem, htruthy, hne⟩, hk⟩
      exact ⟨v, hmem, htruthy, hne, hk⟩
    · rintro ⟨v, hmem, htruthy, hne, hk⟩
      exact ⟨v, ⟨hmem, htruthy, hne⟩, hk⟩

lemma filterMap_truthy (l : List CellValue) (sentinel : String) :
    l.filterMap (fun v =>
        if v.truthy && !(v.toStr == sentinel) then some v.toStr else none)
      = (l.filter (fun v => v.truthy)).filterMap
          (fun v => if !(v.toStr == sentinel) then some v.toStr else none) := by
  induction l with
  | nil => rfl
  | cons v t ih =>
      cases hv : v.truthy with
      | false =>
          simp only [List.filterMap_cons, List.filter_cons, hv, Bool.false_and]
          simpa using ih
      | true =>
          cases hs : (v.toStr == sentinel) with
          | true =>
              have hps : v.toStr = sentinel := by simpa using hs
              simp only [List.filterMap_cons, List.filter_cons, hv, Bool.true_and, hs,
                Bool.not_true]
              simpa [List.filterMap_cons, hps] using ih
          | false =>
              have hps : ¬ v.toStr = sentinel := by simpa using hs
              simp only [List.filterMap_cons, List.filter_cons, hv, Bool.true_and, hs,
                Bool.not_false]
              simpa [List.filterMap_cons, hps] using ih

/-- The sheet of the C9 demonstration: the scanned cells store 0, "" and
False — all non-empty, all falsy. -/
def falsySheet : GridSheet :=
  ⟨6, fun r c =>
    if r == 4 && c == 10 then .int 0
    else if r == 5 && c == 10 then .str ""
    else if r == 6 && c == 10 then .bool false
    else .none⟩

/-- Claim C9: the summarizer discards every falsy cell before any counting
— it factors through a filter on Python truthiness — and 0, "" and False
are falsy though not empty; on `falsySheet`, whose scanned cells store 0,
"" and False, nothing is counted although no scanned cell is empty. -/
theorem c9_falsy_skipped (s : GridSheet) (col startRow : Nat) (sentinel : String) :
    (account_subjects s col startRow sentinel
        = ((column_values s col startRow).filter (fun v => v.truthy)).filterMap
            (fun v => if !(v.toStr == sentinel) then some v.toStr else none))
    ∧ CellValue.truthy (.int 0) = false
    ∧ CellValue.truthy (.str "") = false
    ∧ CellValue.truthy (.bool false) = false
    ∧ (∀ v ∈ column_values falsySheet 10 4, v ≠ CellValue.none)
    ∧ account_subjects falsySheet 10 4 sentinelLabel = [] :=
  ⟨filterMap_truthy (column_values s col startRow) sentinel,
   rfl, rfl, rfl, by decide, by decide⟩

/-- A workbook: named sheets in order.  `openpyxl` sheet names are unique;
lookup by name is `wb[name]`. -/
structure Workbook where
  sheets : List (String × Sheet)

/-- `wb.sheetnames`. -/
def Workbook.sheetnames (wb : Workbook) : List String := wb.sheets.map Prod.fst

/-- `wb[name]`, as an `Option`: `none` is Python's `KeyError`. -/
def Workbook.find (wb : Workbook) (name : String) : Option Sheet :=
  wb.sheets.lookup name

/-- Whether a cell's formula text mentions `name`
(`other_sheet in formula` guarded by the formula test). -/
def cellMentions (v : CellValue) (name : String) : Bool :=
  match formulaText v with
  | some f => strContains f name
  | none => false

/-- One sheet's reference set in the scan of src/analyze_sheets.py lines
47-56: the workbook sheet names, other than the sheet's own, occurring as a
substring of some formula text of the sheet.  The source accumulates into a
Python `set`; this keeps the same members, listed in `allNames` order. -/
def sheet_refs (allNames : List String) (sheetName : String) (ws : Sheet) :
    List String :=
  allNames.filter (fun other =>
    !(other == sheetName) && ws.flatten.any (fun c => cellMentions c.value other))

/-- The `sheet_references` loop of src/analyze_sheets.py lines 41-56: for
each scanned name, index the workbook directly (`wb_with_formulas[sheet_name]`
— a missing sheet raises, modelled as `none`) and record that sheet's
reference set. -/
def sheet_references (wb : Workbook) : List String → Option (List (String × List String))
  | [] => some []
  | name :: rest =>
    match wb.find name with
    | none => none
    | some ws =>
        (sheet_references wb rest).map
          (fun t => (name, sheet_refs wb.sheetnames name ws) :: t)

/-- The hardcoded scan list of src/analyze_sheets.py line 43. -/
def sheets_to_scan : List String :=
  ["출", "분", "매출내역total", "월별요약손익계산서(추정)", "사업장요약현황"]

/-- The printing step of src/analyze_sheets.py lines 58-61: only entries
with a nonempty reference list are printed (`if refs:`). -/
def printed_references (res : List (String × List String)) :
    List (String × List String) :=
  res.filter (fun p => !p.2.isEmpty)

lemma cellMentions_iff (v : CellValue) (name : String) :
    cellMentions v name = true
      ↔ ∃ f, formulaText v = some f ∧ strContains f name = true := by
  cases hf : formulaText v with
  | none => simp [cellMentions, hf]
  | some f => simp [cellMentions, hf]

lemma sheet_references_entries (wb : Workbook) :
    ∀ (toScan : List String) (res : List (String × List String)),
      sheet_references wb toScan = some res →
      ∀ p ∈ res, ∃ ws, wb.find p.1 = some ws
        ∧ p.2 = sheet_refs wb.sheetnames p.1 ws := by
  intro toScan
  induction toScan with
  | nil =>
      intro res h p hp
      simp only [sheet_references, Option.some.injEq] at h
      subst h
      simp at hp
  | cons name rest ih =>
      intro res h p hp
      simp only [sheet_references] at h
      cases hfind : wb.find name with
      | none => rw [hfind] at h; simp at h
      | some ws =>
          rw [hfind] at h
          cases hrest : sheet_references wb rest with
          | none => rw [hrest] at h; simp at h
          | some t =>
              rw [hrest] at h
              simp only [Option.map_some', Option.some.injEq] at h
              subst h
              rcases List.mem_cons.mp hp with hp1 | hp2
              · subst hp1
                exact ⟨ws, hfind, rfl⟩
              · exact ih t hrest p hp2

lemma sheet_references_keys (wb : Workbook) :
    ∀ (toScan : List String) (res : List (String × List String)),
      sheet_references wb toScan = some res → res.map Prod.fst = toScan := by
  intro toScan
  induction toScan with
  | nil =>
      intro res h
      simp only [sheet_references, Option.some.injEq] at h
      subst h
      rfl
  | cons name rest ih =>
      intro res h
      simp only [sheet_references] at h
      cases hfind : wb.find name with
      | none => rw [hfind] at h; simp at h
      | some ws =>
          rw [hfind] at h
          cases hrest : sheet_references wb rest with
          | none => rw [hrest] at h; simp at h
          | some t =>
              rw [hrest] at h
              simp only [Option.map_some', Option.some.injEq] at h
              subst h
              simp [ih t hrest]


/-- Claim C5: a scanned sheet never appears in its own reference set — the
scan tests `other_sheet != sheet_name` before the substring test. -/
theorem c5_no_self_reference (wb : Workbook) (toScan : List String)
    (res : List (String × List String))
    (h : sheet_references wb toScan = some res) :
    ∀ p ∈ res, p.1 ∉ p.2 := by
  intro p hp hmem
  obtain ⟨ws, _, hrefs⟩ := sheet_references_entries wb toScan res h p hp
  rw [hrefs] at hmem
  have hcond := (List.mem_filter.mp hmem).2
  simp at hcond

/-- The "Out" sheet of the spec's example: one formula `=Detail!A1+1`. -/
def outSheet : Sheet := [[⟨"A1", .str "=Detail!A1+1"⟩]]

/-- The "Detail" sheet of the spec's example: no formulas. -/
def detailSheet : Sheet := [[⟨"A1", .int 5⟩]]

/-- The two-sheet example workbook of the spec. -/
def exWb : Workbook := ⟨[("Out", outSheet), ("Detail", detailSheet)]⟩

/-- The scan list of the example. -/
def exScan : List String := ["Out", "Detail"]

/-- The reference map the example computes. -/
def exRes : List (String × List String) := [("Out", ["Detail"]), ("Detail", [])]

/-- Witness for C5 at the concrete two-sheet workbook. -/
theorem c5_witness :
    sheet_references exWb exScan = some exRes ∧ ∀ p ∈ exRes, p.1 ∉ p.2 :=
  ⟨by decide, c5_no_self_reference exWb exScan exRes (by decide)⟩

/-- Claim C7: a scanned sheet's computed reference set holds exactly the
workbook sheet names that differ from its own name and occur as a substring
of at least one of its formula texts. -/
theorem c7_reference_set (wb : Workbook) (toScan : List String)
    (res : List (String × List String)) (name : String) (refs : List String)
    (ws : Sheet) (hres : sheet_references wb toScan = some res)
    (hmem : (name, refs) ∈ res) (hws : wb.find name = some ws) :
    ∀ N, N ∈ refs ↔
      (N ∈ wb.sheetnames ∧ N ≠ name ∧
        ∃ c ∈ ws.flatten, ∃ f, formulaText c.value = some f
          ∧ strContains f N = true) := by
  obtain ⟨ws2, hws2, hrefs⟩ :=
    sheet_references_entries wb toScan res hres (name, refs) hmem
  rw [hws] at hws2
  have hsheet : ws2 = ws := (Option.some.inj hws2).symm
  subst hsheet
  have hrefs2 : refs = sheet_refs wb.sheetnames name ws2 := hrefs
  intro N
  rw [hrefs2, sheet_refs, List.mem_filter]
  simp only [Bool.and_eq_true, Bool.not_eq_true', beq_eq_false_iff_ne, ne_eq,
    List.any_eq_true, cellMentions_iff]

/-- Witness for C7: in the two-sheet example, "Out"'s reference set is
exactly {"Detail"}. -/
theorem c7_witness :
    "Detail" ∈ exWb.sheetnames ∧ "Detail" ≠ "Out" ∧
      ∃ c ∈ outSheet.flatten, ∃ f, formulaText c.value = some f
        ∧ strContains f "Detail" = true :=
  (c7_reference_set exWb exScan exRes "Out" ["Detail"] outSheet
    (by decide) (by decide) (by decide) "Detail").mp (by decide)

/-- Claim C10: the reference map holds one entry per scanned sheet, in scan
order, also for sheets with an empty reference set; only the later printing
step drops empty entries. -/
theorem c10_entry_per_scanned_sheet (wb : Workbook) (toScan : List String)
    (res : List (String × List String))
    (h : sheet_references wb toScan = some res) :
    res.map Prod.fst = toScan
    ∧ ∀ p ∈ res, p.2 = [] → p ∉ printed_references res := by
  refine ⟨sheet_references_keys wb toScan res h, ?_⟩
  intro p _ hempty hmem
  have hcond := (List.mem_filter.mp hmem).2
  rw [hempty] at hcond
  simp at hcond

/-- Witness for C10: the example map has an entry for "Detail" with an
empty set, and the printing step drops exactly that entry. -/
theorem c10_witness :
    sheet_references exWb exScan = some exRes
    ∧ exRes.map Prod.fst = exScan
    ∧ ("Detail", ([] : List String)) ∈ exRes
    ∧ (∀ p ∈ exRes, p.2 = [] → p ∉ printed_references exRes) :=
  ⟨by decide,
   (c10_entry_per_scanned_sheet exWb exScan exRes (by decide)).1,
   by decide,
   (c10_entry_per_scanned_sheet exWb exScan exRes (by decide)).2⟩

/-- The `important_sheets` list of src/analyze_formulas.py line 44. -/
def important_sheets : List String :=
  ["출", "월별요약손익계산서(추정)", "손익계산서추이분석", "경영분석"]

/-- One sheet's entry in `all_formula_stats`:
`{'total_formulas': len(formulas), 'formula_types': dict(formula_types)}`. -/
structure SheetStats where
  total_formulas : Nat
  formula_types : List (FormulaType × Nat)
deriving DecidableEq, Repr

/-- The `all_formula_stats` loop of src/analyze_formulas.py lines 46-58:
for each important sheet name, analyze it only when it is present
(`if sheet_name in wb.sheetnames`), otherwise continue with the rest. -/
def all_formula_stats (wb : Workbook) : List (String × SheetStats) :=
  important_sheets.filterMap (fun name =>
    (wb.find name).map (fun ws =>
      (name, SheetStats.mk (analyze_formulas_detailed ws).1.length
        (analyze_formulas_detailed ws).2)))

lemma stats_keys (wb : Workbook) (l : List String) :
    (l.filterMap (fun name =>
        (wb.find name).map (fun ws =>
          (name, SheetStats.mk (analyze_formulas_detailed ws).1.length
            (analyze_formulas_detailed ws).2)))).map Prod.fst
      = l.filter (fun name => (wb.find name).isSome) := by
  induction l with
  | nil => rfl
  | cons name rest ih =>
      cases hfind : wb.find name with
      | none =>
          simp only [List.filterMap_cons, List.filter_cons, hfind, Option.map_none',
            Option.isSome_none]
          simpa using ih
      | some ws =>
          simp only [List.filterMap_cons, List.filter_cons, hfind, Option.map_some',
            Option.isSome_some]
          simpa using ih

/-- Claim C8, as stated, is false for src/analyze_sheets.py: its reference
loop indexes each hardcoded sheet name directly, so a workbook lacking them
makes the run fail (`KeyError`, modelled `none`) instead of continuing. -/
theorem c8_counterexample :
    sheet_references (Workbook.mk []) sheets_to_scan = none
    ∧ ¬ ∃ res, sheet_references (Workbook.mk []) sheets_to_scan = some res := by
  constructor
  · rfl
  · rintro ⟨res, hres⟩
    rw [show sheet_references (Workbook.mk []) sheets_to_scan = none from rfl] at hres
    exact Option.noConfusion hres

/-- Claim C8 (corrected part): `all_formula_stats` in
src/analyze_formulas.py skips an absent important sheet — its entries are
exactly the present important sheets, in order, an absent sheet
contributing none — while the reference loop of src/analyze_sheets.py is
fatal as soon as one scanned name is absent. -/
theorem c8_missing_sheet (wb : Workbook) :
    ((all_formula_stats wb).map Prod.fst
        = important_sheets.filter (fun name => (wb.find name).isSome))
    ∧ (∀ (toScan : List String) (name : String), name ∈ toScan →
        wb.find name = none → sheet_references wb toScan = none) := by
  refine ⟨stats_keys wb important_sheets, ?_⟩
  intro toScan
  induction toScan with
  | nil => intro name h; simp at h
  | cons a rest ih =>
      intro name hmem hnone
      rcases List.mem_cons.mp hmem with h1 | h2
      · subst h1
        simp only [sheet_references, hnone]
      · cases hfind : wb.find a with
        | none => simp only [sheet_references, hfind]
        | some ws =>
            simp only [sheet_references, hfind, ih name h2 hnone, Option.map_none']
